import Mathlib

/-!
# Verification of the PyTTa dual-domain signal core (`pytta/classes.py`)

This file is a shallow embedding, in Lean 4, of the `SignalObj` class of
`pytta/classes.py`: the dual-domain (time / frequency) signal object and its
three channel-broadcasting arithmetic operators (`__truediv__`, `__add__`,
`__sub__`).

Modelling conventions:

* numpy float/complex arrays are modelled with exact `ℝ` / `ℂ` values
  (floating-point rounding is abstracted away; all claims about numeric
  tolerances become exact equalities);
* a numpy array of rank 1, 2 or 3 is a nested list (`NDArray`); numpy arrays
  are rectangular, so rank-2 shape information is read off the first row;
* Python exceptions are an explicit error type `PyError`; a *setter* returns
  the (possibly partially mutated) object state together with an optional
  error, because a Python property setter that raises mid-way leaves the
  already-assigned fields in place; constructors and operators return
  `Except PyError SigState` because their receiver is discarded on failure;
* `np.log2 0 = -inf` is not a real number; the `fftDegree` field is an
  `Option ℝ` whose `none` value stands for that IEEE `-inf`;
* the sampling rate is always an actual number in the code paths embedded
  here (every modelled call site passes one), so it is a plain `ℝ`; Python
  raises `ZeroDivisionError` on division by a zero number, which is made
  explicit at each division site.
-/

namespace PyTTa

/-- The Python exceptions that the embedded code paths can raise.
`attributeError` is raised both by the rank guard in `SignalObj.__init__`
(line 143) and by any assignment to the getter-only `domain` property
(lines 159-161); `typeError` by the operand guard of the three operators;
`indexError` by numpy indexing with more indices than the array's rank and
by `args[1]` on a too-short tuple; `zeroDivisionError` by Python division by
zero; `nameError` by reading a loop variable whose loop never ran;
`valueError` by numpy elementwise operations on non-broadcastable shapes and
by `np.fft.fft`/`np.fft.ifft` on a zero-length transform axis ("Invalid
number of FFT data points (0) specified"). -/
inductive PyError where
  | attributeError
  | typeError
  | indexError
  | zeroDivisionError
  | nameError
  | valueError
  deriving DecidableEq, Repr

/-- A numpy array of rank 1, 2 or 3 over entries `α` (the only ranks the
code distinguishes: `size_check` compares the rank with 1 and 2, and the
constructor rejects rank > 2).  Rank-2 data is stored row-major as in numpy:
the outer list is axis 0 (samples), the inner lists are axis 1 (channels). -/
inductive NDArray (α : Type) where
  | r1 : List α → NDArray α
  | r2 : List (List α) → NDArray α
  | r3 : List (List (List α)) → NDArray α
  deriving DecidableEq

namespace NDArray

/-- Embeds `np.size(a.shape)`: the rank of the array (`SignalObj.size_check`). -/
def rank : NDArray α → ℕ
  | .r1 _ => 1
  | .r2 _ => 2
  | .r3 _ => 3

/-- Embeds `len(a)`: the length of the first axis. -/
def len : NDArray α → ℕ
  | .r1 xs => xs.length
  | .r2 xs => xs.length
  | .r3 xs => xs.length

/-- Embeds `SignalObj.num_channels`: `np.shape(a)[1]`, with the `IndexError` of a
rank-1 shape caught and turned into 1.  numpy arrays are rectangular, so for
rank ≥ 2 the second shape entry is the length of the first row. -/
def numChannels : NDArray α → ℕ
  | .r1 _ => 1
  | .r2 rows => (rows.headD []).length
  | .r3 cubes => (cubes.headD []).length

/-- Map a function over every entry of the array. -/
def map (f : α → β) : NDArray α → NDArray β
  | .r1 xs => .r1 (xs.map f)
  | .r2 xs => .r2 (xs.map (·.map f))
  | .r3 xs => .r3 (xs.map (·.map (·.map f)))

end NDArray

/-- Axis swap of a rectangular nested list (the rank-2 case of
`np.transpose`): entry `(j, i)` of the result is entry `(i, j)` of the
input.  The second-axis length is read off the first row (numpy arrays are
rectangular); `dflt` pads would-be ragged input, which never arises for
genuine numpy data. -/
def npTranspose (dflt : α) (rows : List (List α)) : List (List α) :=
  (List.range (rows.headD []).length).map fun j => rows.map fun r => r.getD j dflt

/-- Coefficient `k` of `np.fft.fft` applied to the length-`N` sequence `f`:
`A_k = Σ_{m<N} a_m exp(-2πi m k / N)` (the numpy forward-transform
definition, with its negative exponent and no normalisation). -/
noncomputable def dftCoef (N : ℕ) (f : ℕ → ℂ) (k : ℕ) : ℂ :=
  ∑ m ∈ Finset.range N, f m * Complex.exp (-(2 * Real.pi * Complex.I) * k * m / N)

/-- Embeds `np.fft.fft` on a 1-D array. -/
noncomputable def dft (x : List ℂ) : List ℂ :=
  (List.range x.length).map (dftCoef x.length fun m => x.getD m 0)

/-- Coefficient `k` of `np.fft.ifft` applied to the length-`N` sequence `f`:
`a_k = (Σ_{m<N} A_m exp(2πi m k / N)) / N` (the numpy inverse transform,
with positive exponent and `1/N` normalisation). -/
noncomputable def idftCoef (N : ℕ) (f : ℕ → ℂ) (k : ℕ) : ℂ :=
  (∑ m ∈ Finset.range N, f m * Complex.exp ((2 * Real.pi * Complex.I) * k * m / N)) / N

/-- Embeds `np.fft.ifft` on a 1-D array. -/
noncomputable def idft (x : List ℂ) : List ℂ :=
  (List.range x.length).map (idftCoef x.length fun m => x.getD m 0)

/-- A 1-D list transform applied along axis 0 of a rank-2 nested list:
transpose, transform each row (= each original column), transpose back. -/
def alongAxis0 (t : List ℂ → List ℂ) (rows : List (List ℂ)) : List (List ℂ) :=
  npTranspose 0 ((npTranspose 0 rows).map t)

/-- Embeds `np.transpose(f(a.transpose()))` for `f` among `np.fft.fft`, `np.fft.ifft`
(lines 198-199 and 208-212): the fft routines transform along the *last*
axis and `np.transpose` reverses the axes, so the composite applies the 1-D
transform `t` along axis 0 — independently per channel.  For a rank-3 array
the reversal of axes likewise makes `t` act along axis 0 for every pair of
trailing indices. -/
def transformAxis0 (t : List ℂ → List ℂ) : NDArray ℂ → NDArray ℂ
  | .r1 xs => .r1 (t xs)
  | .r2 rows => .r2 (alongAxis0 t rows)
  | .r3 cubes => .r3 (npTranspose [] ((npTranspose [] cubes).map (alongAxis0 t)))

/-- Line 198-199: `np.transpose(np.fft.fft(self.timeSignal.transpose()))`. -/
noncomputable def fftAxis0 : NDArray ℂ → NDArray ℂ := transformAxis0 dft

/-- Lines 208-212: `np.transpose(np.real(np.fft.ifft(self.freqSignal.transpose())))`.
`np.real` keeps the real part of every entry (stored back as a complex-free
float array; here re-embedded into `ℂ` since the buffers are dtype-flexible). -/
noncomputable def ifftAxis0Re (a : NDArray ℂ) : NDArray ℂ :=
  (transformAxis0 idft a).map fun z => (z.re : ℂ)

/-- Embeds `np.linspace(start, stop, num)` with the default inclusive endpoint:
`num` evenly spaced points from `start` to `stop`.  numpy computes
`start + k * (stop - start) / (num - 1)` and pins the last point to `stop`
(the same value in exact arithmetic); `num = 1` yields `[start]`,
`num = 0` the empty array. -/
noncomputable def linspace (start stop : ℝ) (num : ℕ) : List ℝ :=
  if num = 1 then [start]
  else (List.range num).map fun k : ℕ => start + (k : ℝ) * (stop - start) / ((num : ℝ) - 1)

/-- Embeds `np.arange(0, stop, step)`: the points `k * step` for
`k = 0, …, ⌈stop / step⌉ - 1` (numpy computes the length as the ceiling of
`(stop - start) / step`). -/
noncomputable def arange (stop step : ℝ) : List ℝ :=
  (List.range ⌈stop / step⌉₊).map fun k : ℕ => (k : ℝ) * step

/-- Embeds `np.log2 n` for the natural `n = len(...)`.  `np.log2 0` is IEEE `-inf`,
which is not a real number; it is modelled as `none`. -/
noncomputable def np_log2 (n : ℕ) : Option ℝ :=
  if n = 0 then none else some (Real.logb 2 n)

/-- The observable state of a `SignalObj` instance: the two buffers, the
derived scalars and axes, and the inherited `_samplingRate` /`_domain`
fields.  The buffers are dtype-flexible numpy arrays, embedded over `ℂ`
(time buffers hold real values in every modelled path). -/
structure SigState where
  samplingRate : ℝ
  timeSignal : NDArray ℂ
  freqSignal : NDArray ℂ
  numSamples : ℕ
  fftDegree : Option ℝ
  timeLength : ℝ
  timeVector : List ℝ
  freqVector : List ℝ
  domain : String

/-- The `timeSignal` property setter (lines 174-199), with the statements in
source order.  A raised exception is returned next to the state reached so
far, because a Python setter that raises mid-way leaves the fields it has
already assigned in place.  The two division sites are the only statements
that can raise here: `numSamples / samplingRate` (line 182) when the
sampling rate is the number 0, and `(numSamples - 1) * samplingRate /
numSamples` (lines 191-195) when the new buffer is empty. -/
noncomputable def setTimeSignal (s : SigState) (newSignal : NDArray ℂ) :
    SigState × Option PyError :=
  let sr := s.samplingRate
  let s := { s with timeSignal := newSignal }
  let n := newSignal.len
  let s := { s with numSamples := n }
  let s := { s with fftDegree := np_log2 n }
  if sr = 0 then (s, some .zeroDivisionError)
  else
    let s := { s with timeLength := (n : ℝ) / sr }
    let s := { s with timeVector := linspace 0 (s.timeLength - 1 / sr) n }
    if n = 0 then (s, some .zeroDivisionError)
    else
      let s := { s with freqVector := linspace 0 (((n : ℝ) - 1) * sr / n) n }
      ({ s with freqSignal := fftAxis0 newSignal }, none)

/-- The `freqSignal` property setter (lines 205-226), in source order.
Line 207 commits `_freqSignal` first; line 208-212 then runs `np.fft.ifft`
on the transposed buffer, which raises
`ValueError("Invalid number of FFT data points (0) specified")` whenever
the transform axis — axis 0 of the submitted buffer — has length 0
(numpy's `_raw_fft` checks `n < 1` before doing anything), so a zero-length
assignment fails right there with only `_freqSignal` overwritten.  Note the
asymmetry with the time setter: here the time axis is built with
`np.arange(0, timeLength, 1/samplingRate)` (line 220) instead of
`np.linspace`.  The remaining division sites that can raise are line 217
(zero sampling rate) and lines 223-226 (zero derived sample count, which a
successful ifft never produces for a genuine numpy buffer). -/
noncomputable def setFreqSignal (s : SigState) (newSignal : NDArray ℂ) :
    SigState × Option PyError :=
  let sr := s.samplingRate
  let s := { s with freqSignal := newSignal }
  if newSignal.len = 0 then (s, some .valueError)
  else
  let s := { s with timeSignal := ifftAxis0Re newSignal }
  let n : ℕ := s.timeSignal.len
  let s := { s with numSamples := n }
  let s := { s with fftDegree := np_log2 n }
  if sr = 0 then (s, some .zeroDivisionError)
  else
    let s := { s with timeLength := (n : ℝ) / sr }
    let s := { s with timeVector := arange s.timeLength (1 / sr) }
    if n = 0 then (s, some .zeroDivisionError)
    else
      ({ s with freqVector := linspace 0 (((n : ℝ) - 1) * sr / n) n }, none)

/-- The field values of a `SignalObj` before either buffer setter has run:
`PyTTaObj.__init__` leaves every derived field `None` and the buffers do not
exist yet.  Any successful construction overwrites all of them, so the
placeholder values below are unobservable; they only make the record total. -/
def blankState (sr : ℝ) (domain : String) : SigState :=
  { samplingRate := sr, timeSignal := .r1 [], freqSignal := .r1 [],
    numSamples := 0, fftDegree := none, timeLength := 0,
    timeVector := [], freqVector := [], domain := domain }

/-- Embeds `SignalObj.__init__(signalArray, domain, samplingRate=sr)`
(lines 135-155), for the call shapes that occur in the repository (the
sampling rate passed along to `PyTTaObj.__init__`, no further positionals).

* the rank guard (lines 140-143) raises `AttributeError` before anything
  else happens;
* `self._domain = domain or args[1]` (line 147): a falsy (empty) domain
  string reads `args[1]`, which raises `IndexError` for these call shapes;
* the `'freq'` / `'time'` branches run the corresponding buffer setter and
  propagate its exception, if any;
* the fallback branch (lines 152-155) runs the time setter, prints, and
  then executes `self.domain = 'time'` — an assignment to the getter-only
  `domain` property (lines 159-161), which raises `AttributeError`. -/
noncomputable def signalObjInit (signalArray : NDArray ℂ) (domain : String)
    (sr : ℝ) : Except PyError SigState :=
  if 2 < signalArray.rank then .error .attributeError
  else if domain = "" then .error .indexError
  else
    let s0 := blankState sr domain
    if domain = "freq" then
      match setFreqSignal s0 signalArray with
      | (s, none) => .ok s
      | (_, some e) => .error e
    else if domain = "time" then
      match setTimeSignal s0 signalArray with
      | (s, none) => .ok s
      | (_, some e) => .error e
    else
      match setTimeSignal s0 signalArray with
      | (_, none) => .error .attributeError
      | (_, some e) => .error e

/-- The right-hand operand of an arithmetic operator: either another
`SignalObj`, or a value of any other runtime type (the operators only probe
`type(other) != type(self)`, so all non-`SignalObj` values behave alike). -/
inductive PyValue where
  | signal : SigState → PyValue
  | notSignal : PyValue

/-- numpy column slicing `a[:, ch]`.  On a rank-1 array it raises
`IndexError: too many indices`; on a rank-2 array it yields column `ch`
(raising `IndexError` when `ch` is out of bounds); on a rank-3 array it
yields the rank-2 slice. -/
def NDArray.col : NDArray ℂ → ℕ → Except PyError (NDArray ℂ)
  | .r1 _, _ => .error .indexError
  | .r2 rows, ch =>
      if rows.all fun r => ch < r.length then
        .ok (.r1 (rows.map fun r => r.getD ch 0))
      else .error .indexError
  | .r3 cubes, ch =>
      if cubes.all fun slab => ch < slab.length then
        .ok (.r2 (cubes.map fun slab => slab.getD ch []))
      else .error .indexError

/-- numpy elementwise division of two 1-D arrays, with the 1-D broadcasting
rule (a length-1 operand broadcasts; otherwise the lengths must agree, else
numpy raises a broadcast `ValueError`).  Operands of unequal rank can only
reach a division site here from a state whose two buffers disagree in rank,
which no constructor or setter produces; such a mismatch is mapped to the
numpy broadcast error. -/
noncomputable def elemDiv : NDArray ℂ → NDArray ℂ → Except PyError (NDArray ℂ)
  | .r1 a, .r1 b =>
      if a.length = b.length then .ok (.r1 (List.zipWith (· / ·) a b))
      else if b.length = 1 then .ok (.r1 (a.map (· / b.headD 0)))
      else if a.length = 1 then .ok (.r1 (b.map (a.headD 0 / ·)))
      else .error .valueError
  | _, _ => .error .valueError

/-- Run a property setter inside an operator body: a raised exception
propagates out of the operator (and the partially mutated `result` object is
discarded with the aborted call). -/
def liftSet (r : SigState × Option PyError) : Except PyError SigState :=
  match r with
  | (s, none) => .ok s
  | (_, some e) => .error e

/-- Embeds `SignalObj.__truediv__` (lines 231-261), statement by statement:

* the operand type guard raises `TypeError` (line 236);
* `result = SignalObj(samplingRate=self.samplingRate)` builds a fresh
  default signal — time buffer `np.array([0])` — and `result._domain =
  'freq'` overwrites its domain tag directly (lines 238-239);
* both operands rank ≥ 2 (lines 240-248): Python evaluates the right-hand
  side of the first loop iteration first — `self.freqSignal[:, 0]`, then
  `other.freqSignal[:, 0]`, then their elementwise division (which raises
  a broadcast `ValueError` for incompatible lengths) — and only then the
  store target `result.freqSignal[:, i + channelB]`; `result.freqSignal`
  is the 1-sample rank-1 default buffer, so that store raises `IndexError`
  and the loop never reaches a second iteration.  If `self` has zero
  channels the loops do not run at all and the fresh signal is returned;
  if only `other` has zero channels, the statement `i = channelB` reads a
  never-bound loop variable (`NameError`);
* `self` rank ≥ 2, `other` rank 1 (lines 249-252): each iteration *rebinds*
  `result.freqSignal` (through the property setter) to the quotient of one
  channel of `self` by `other`'s buffer, so only the final channel's
  quotient survives the loop;
* `self` rank 1, `other` rank ≥ 2 (lines 254-257): the loop runs over
  `self.num_channels()` — which is 1 — so the single iteration divides
  `self`'s buffer by channel 0 of `other`;
* both rank 1 (line 259): one elementwise division. -/
noncomputable def truedivOp (self : SigState) (other : PyValue) :
    Except PyError SigState :=
  match other with
  | .notSignal => .error .typeError
  | .signal o => do
    let r0 ← signalObjInit (.r1 [0]) "time" self.samplingRate
    let result := { r0 with domain := "freq" }
    if 1 < self.timeSignal.rank then
      if 1 < o.timeSignal.rank then
        if self.timeSignal.numChannels = 0 then .ok result
        else if o.timeSignal.numChannels = 0 then .error .nameError
        else do
          let colA ← self.freqSignal.col 0
          let colB ← o.freqSignal.col 0
          let _ ← elemDiv colA colB
          .error .indexError
      else
        (List.range self.timeSignal.numChannels).foldlM
          (fun acc ch => do
            let colA ← self.freqSignal.col ch
            let q ← elemDiv colA o.freqSignal
            liftSet (setFreqSignal acc q))
          result
    else if 1 < o.timeSignal.rank then
      (List.range self.timeSignal.numChannels).foldlM
        (fun acc ch => do
          let colB ← o.freqSignal.col ch
          let q ← elemDiv self.freqSignal colB
          liftSet (setFreqSignal acc q))
        result
    else do
      let q ← elemDiv self.freqSignal o.freqSignal
      liftSet (setFreqSignal result q)

/-- Embeds `SignalObj.__add__` (lines 264-293).  After the operand type guard and
the fresh `result = SignalObj(samplingRate=self.samplingRate)`, line 272
executes `result.domain = 'time'` — an assignment to the getter-only
`domain` property (lines 159-161) — so every addition of two `SignalObj`s
raises `AttributeError` before any sample arithmetic; the per-channel
addition code below line 272 is unreachable. -/
noncomputable def addOp (self : SigState) (other : PyValue) :
    Except PyError SigState :=
  match other with
  | .notSignal => .error .typeError
  | .signal _ => do
    let _ ← signalObjInit (.r1 [0]) "time" self.samplingRate
    .error .attributeError

/-- Embeds `SignalObj.__sub__` (lines 296-325): identical shape to `__add__`,
including the fatal `result.domain = 'time'` at line 304, so every
subtraction of two `SignalObj`s raises `AttributeError` as well. -/
noncomputable def subOp (self : SigState) (other : PyValue) :
    Except PyError SigState :=
  match other with
  | .notSignal => .error .typeError
  | .signal _ => do
    let _ ← signalObjInit (.r1 [0]) "time" self.samplingRate
    .error .attributeError

/-- A valid `SignalObj` state: the object built by
`SignalObj([1, 2, 3], 'time', 8)`. -/
noncomputable def validThree : SigState :=
  (setTimeSignal (blankState 8 "time") (.r1 [1, 2, 3])).1

/-! ## Reduction lemmas for the setters and the constructor -/

/-- A successful `timeSignal` assignment, written out field by field. -/
theorem setTimeSignal_eq_ok (s : SigState) (arr : NDArray ℂ)
    (h1 : s.samplingRate ≠ 0) (h2 : arr.len ≠ 0) :
    setTimeSignal s arr =
      ({ samplingRate := s.samplingRate, timeSignal := arr,
         freqSignal := fftAxis0 arr, numSamples := arr.len,
         fftDegree := np_log2 arr.len,
         timeLength := (arr.len : ℝ) / s.samplingRate,
         timeVector := linspace 0
           ((arr.len : ℝ) / s.samplingRate - 1 / s.samplingRate) arr.len,
         freqVector := linspace 0
           (((arr.len : ℝ) - 1) * s.samplingRate / arr.len) arr.len,
         domain := s.domain }, none) := by
  simp [setTimeSignal, h1, h2]

/-- A `timeSignal` assignment of an empty buffer: the partially mutated
state and the `ZeroDivisionError` from the frequency-axis formula. -/
theorem setTimeSignal_empty (s : SigState) (arr : NDArray ℂ)
    (h1 : s.samplingRate ≠ 0) (h2 : arr.len = 0) :
    setTimeSignal s arr =
      ({ s with timeSignal := arr, numSamples := 0, fftDegree := none,
                timeLength := 0, timeVector := [] }, some .zeroDivisionError) := by
  simp [setTimeSignal, h1, h2, np_log2, linspace]

/-- A successful `freqSignal` assignment, written out field by field. -/
theorem setFreqSignal_eq_ok (s : SigState) (arr : NDArray ℂ)
    (h1 : s.samplingRate ≠ 0) (h0 : arr.len ≠ 0)
    (h2 : (ifftAxis0Re arr).len ≠ 0) :
    setFreqSignal s arr =
      ({ samplingRate := s.samplingRate, timeSignal := ifftAxis0Re arr,
         freqSignal := arr, numSamples := (ifftAxis0Re arr).len,
         fftDegree := np_log2 (ifftAxis0Re arr).len,
         timeLength := ((ifftAxis0Re arr).len : ℝ) / s.samplingRate,
         timeVector := arange
           (((ifftAxis0Re arr).len : ℝ) / s.samplingRate) (1 / s.samplingRate),
         freqVector := linspace 0
           ((((ifftAxis0Re arr).len : ℝ) - 1) * s.samplingRate /
             (ifftAxis0Re arr).len) (ifftAxis0Re arr).len,
         domain := s.domain }, none) := by
  simp [setFreqSignal, h1, h0, h2]

/-- A `freqSignal` assignment of a zero-length buffer: `np.fft.ifft` raises
`ValueError` at once (lines 208-212), so only the `_freqSignal` field
(line 207) has been committed when the exception propagates. -/
theorem setFreqSignal_empty (s : SigState) (arr : NDArray ℂ)
    (h2 : arr.len = 0) :
    setFreqSignal s arr = ({ s with freqSignal := arr }, some .valueError) := by
  simp [setFreqSignal, h2]

/-! ## The Fourier inversion theorem for the embedded numpy transforms -/

/-- Reading entry `m < N` of a mapped range list. -/
theorem getD_map_range {N m : ℕ} (f : ℕ → ℂ) (h : m < N) :
    ((List.range N).map f).getD m 0 = f m := by
  have hm : m < ((List.range N).map f).length := by simpa using h
  rw [List.getD_eq_getElem _ _ hm]
  simp

/-- Orthogonality of the numpy DFT kernels: summing
`exp(2πi·j·m/N) · exp(-2πi·m·t/N)` over `m < N` gives `N` when `j = t` and
`0` otherwise (for `j, t < N`). -/
theorem sum_exp_kernel (N : ℕ) (hN : N ≠ 0) {j t : ℕ} (hj : j < N) (ht : t < N) :
    ∑ m ∈ Finset.range N,
      Complex.exp ((2 * Real.pi * Complex.I) * j * m / N) *
        Complex.exp (-(2 * Real.pi * Complex.I) * m * t / N) =
    if j = t then (N : ℂ) else 0 := by
  set ζ : ℂ := Complex.exp (2 * Real.pi * Complex.I / N) with hζdef
  have hζ : IsPrimitiveRoot ζ N := Complex.isPrimitiveRoot_exp N hN
  have hζne : ζ ≠ 0 := Complex.exp_ne_zero _
  have hterm : ∀ m : ℕ,
      Complex.exp ((2 * Real.pi * Complex.I) * j * m / N) *
        Complex.exp (-(2 * Real.pi * Complex.I) * m * t / N) =
      (ζ ^ j * (ζ ^ t)⁻¹) ^ m := by
    intro m
    have e1 : (2 * Real.pi * Complex.I) * j * m / N =
        ((j * m : ℕ) : ℂ) * (2 * Real.pi * Complex.I / N) := by
      push_cast; ring
    have e2 : -(2 * Real.pi * Complex.I) * m * t / N =
        -(((t * m : ℕ) : ℂ) * (2 * Real.pi * Complex.I / N)) := by
      push_cast; ring
    rw [e1, e2, Complex.exp_neg, Complex.exp_nat_mul, Complex.exp_nat_mul, ← hζdef]
    rw [pow_mul, pow_mul, ← inv_pow, ← mul_pow]
  rw [Finset.sum_congr rfl fun m _ => hterm m]
  rcases eq_or_ne j t with hjt | hjt
  · subst hjt
    rw [mul_inv_cancel₀ (pow_ne_zero _ hζne)]
    simp
  · have hc1 : ζ ^ j * (ζ ^ t)⁻¹ ≠ 1 := by
      intro hc
      have : ζ ^ j = ζ ^ t := by
        field_simp at hc
        exact hc
      exact hjt (hζ.pow_inj hj ht this)
    rw [geom_sum_eq hc1 N]
    have hcN : (ζ ^ j * (ζ ^ t)⁻¹) ^ N = 1 := by
      rw [mul_pow, ← pow_mul, ← inv_pow, ← pow_mul, mul_comm j N, mul_comm t N,
        pow_mul, pow_mul]
      simp [hζ.pow_eq_one]
    rw [hcN, if_neg hjt]
    simp

/-- The numpy inverse transform undoes the forward transform exactly (in
exact complex arithmetic): `np.fft.ifft(np.fft.fft(x)) = x`. -/
theorem idft_dft (x : List ℂ) : idft (dft x) = x := by
  rcases eq_or_ne x.length 0 with h0 | hN
  · rw [List.length_eq_zero] at h0
    subst h0
    simp [idft, dft]
  · have hlen : (dft x).length = x.length := by simp [dft]
    have hmain : ∀ j, j < x.length →
        idftCoef x.length (fun m => (dft x).getD m 0) j = x.getD j 0 := by
      intro j hj
      rw [idftCoef]
      have hgd : ∀ m ∈ Finset.range x.length,
          (dft x).getD m 0 *
              Complex.exp ((2 * Real.pi * Complex.I) * j * m / x.length) =
            ∑ t ∈ Finset.range x.length,
              x.getD t 0 *
                (Complex.exp ((2 * Real.pi * Complex.I) * j * m / x.length) *
                  Complex.exp (-(2 * Real.pi * Complex.I) * m * t / x.length)) := by
        intro m hm
        rw [Finset.mem_range] at hm
        rw [dft, getD_map_range _ hm, dftCoef, Finset.sum_mul]
        exact Finset.sum_congr rfl fun t _ => by ring
      rw [Finset.sum_congr rfl hgd, Finset.sum_comm]
      have hin : ∀ t ∈ Finset.range x.length,
          (∑ m ∈ Finset.range x.length,
            x.getD t 0 *
              (Complex.exp ((2 * Real.pi * Complex.I) * j * m / x.length) *
                Complex.exp (-(2 * Real.pi * Complex.I) * m * t / x.length))) =
          x.getD t 0 * (if j = t then (x.length : ℂ) else 0) := by
        intro t htr
        rw [Finset.mem_range] at htr
        rw [← Finset.mul_sum, sum_exp_kernel x.length hN hj htr]
      rw [Finset.sum_congr rfl hin]
      have hnc : (x.length : ℂ) ≠ 0 := Nat.cast_ne_zero.mpr hN
      simp only [mul_ite, mul_zero]
      rw [Finset.sum_ite_eq (Finset.range x.length) j
        fun t => x.getD t 0 * (x.length : ℂ)]
      rw [if_pos (Finset.mem_range.mpr hj)]
      rw [mul_div_assoc, div_self hnc, mul_one]
    calc idft (dft x)
        = (List.range x.length).map
            (idftCoef x.length fun m => (dft x).getD m 0) := by
          unfold idft
          rw [hlen]
      _ = (List.range x.length).map (fun j => x.getD j 0) :=
          List.map_congr_left fun j hjr => hmain j (List.mem_range.mp hjr)
      _ = x := by
          apply List.ext_getElem
          · simp
          · intro i h1 h2
            simp only [List.getElem_map, List.getElem_range]
            exact List.getD_eq_getElem x 0 h2

/-! ## Claim theorems -/

/-- C9: for every `SignalObj` and every right-hand operand that is not a
`SignalObj`, each of `__truediv__`, `__add__` and `__sub__` raises the
operand-type error (`TypeError("A SignalObj can only operate with other
alike")`, the spec's `TypeOperandError`) — it is the first statement of each
operator, before any result is computed, so the error comes back whatever
the operands' buffers hold. -/
theorem operators_reject_foreign_operand (s : SigState) :
    truedivOp s .notSignal = .error .typeError ∧
    addOp s .notSignal = .error .typeError ∧
    subOp s .notSignal = .error .typeError :=
  ⟨rfl, rfl, rfl⟩

/-- C9 witness: the guard fires on a concrete signal as left operand. -/
theorem operators_reject_foreign_operand_witness :
    truedivOp (blankState 8 "time") .notSignal = .error .typeError ∧
    addOp (blankState 8 "time") .notSignal = .error .typeError ∧
    subOp (blankState 8 "time") .notSignal = .error .typeError :=
  operators_reject_foreign_operand (blankState 8 "time")

/-- C10: constructing a `SignalObj` with a domain tag that is neither
`'time'` nor `'freq'` never completes: no state is ever returned, and on the
intended fallback path (non-empty tag, well-formed buffer) the failure is
precisely the `AttributeError` raised by `self.domain = 'time'`, since the
`domain` property has no setter. -/
theorem init_invalid_domain_raises (arr : NDArray ℂ) (sr : ℝ) (d : String)
    (h1 : d ≠ "time") (h2 : d ≠ "freq") :
    (∀ s, signalObjInit arr d sr ≠ .ok s) ∧
    (d ≠ "" → arr.rank ≤ 2 → sr ≠ 0 → arr.len ≠ 0 →
      signalObjInit arr d sr = .error .attributeError) := by
  constructor
  · intro s hs
    by_cases hr : 2 < arr.rank
    · simp [signalObjInit, hr] at hs
    · by_cases he : d = ""
      · simp [signalObjInit, hr, he] at hs
      · rcases hset : setTimeSignal (blankState sr d) arr with ⟨st, oe⟩
        cases oe <;> simp [signalObjInit, hr, he, h1, h2, hset] at hs
  · intro h3 h4 h5 h6
    have hr : ¬ 2 < arr.rank := not_lt.mpr h4
    have h5' : (blankState sr d).samplingRate ≠ 0 := h5
    simp [signalObjInit, hr, h3, h1, h2, setTimeSignal_eq_ok _ _ h5' h6]

/-- C10 witness: the fallback construction with domain `'other'` on a valid
buffer fails with `AttributeError`. -/
theorem init_invalid_domain_raises_witness :
    (∀ s, signalObjInit (.r1 [1]) "other" 8 ≠ .ok s) ∧
    signalObjInit (.r1 [1]) "other" 8 = .error .attributeError := by
  have h := init_invalid_domain_raises (.r1 [1]) 8 "other" (by decide) (by decide)
  exact ⟨h.1, h.2 (by decide) (by decide) (by simp) (by decide)⟩

/-- C7: the rank guard lives in `SignalObj.__init__`: handing a rank-3
buffer to the constructor as a time-domain signal raises the dimension
error (an `AttributeError` whose message names the >2-dimension violation),
while every rank-1 or rank-2 buffer (non-empty, with a non-zero sampling
rate) is accepted and stored. -/
theorem init_rank_guard :
    (∀ (arr : NDArray ℂ) (sr : ℝ), 2 < arr.rank →
      signalObjInit arr "time" sr = .error .attributeError) ∧
    (∀ (arr : NDArray ℂ) (sr : ℝ), arr.rank ≤ 2 → arr.len ≠ 0 → sr ≠ 0 →
      ∃ s, signalObjInit arr "time" sr = .ok s ∧ s.timeSignal = arr) := by
  constructor
  · intro arr sr h
    simp [signalObjInit, h]
  · intro arr sr h4 h6 h5
    have hr : ¬ 2 < arr.rank := not_lt.mpr h4
    have h5' : (blankState sr "time").samplingRate ≠ 0 := h5
    have hok := setTimeSignal_eq_ok (blankState sr "time") arr h5' h6
    refine ⟨(setTimeSignal (blankState sr "time") arr).1, ?_, ?_⟩
    · simp [signalObjInit, hr, hok]
    · rw [hok]

/-- C7 witness: a 3-D buffer is rejected, a 1-D buffer accepted. -/
theorem init_rank_guard_witness :
    signalObjInit (.r3 [[[1]]]) "time" 8 = .error .attributeError ∧
    ∃ s, signalObjInit (.r1 [1, 2]) "time" 8 = .ok s ∧
      s.timeSignal = .r1 [1, 2] :=
  ⟨init_rank_guard.1 (.r3 [[[1]]]) 8 (by decide),
   init_rank_guard.2 (.r1 [1, 2]) 8 (by decide) (by decide) (by simp)⟩

/-- C3 counterexample: assigning the empty buffer to `timeSignal` on a
freshly blank object raises a plain `ZeroDivisionError` (from the
frequency-axis formula `(numSamples - 1) * samplingRate / numSamples`), not
any dedicated empty-signal error, and by the time it is raised the
`fftDegree` field has already been overwritten with `np.log2 0 = -inf`
(modelled `none`) — an infinite derived value *is* produced. -/
theorem empty_assign_counterexample :
    (setTimeSignal (blankState 8 "time") (.r1 [])).2 =
        some PyError.zeroDivisionError ∧
    (setTimeSignal (blankState 8 "time") (.r1 [])).1.fftDegree = none := by
  rw [setTimeSignal_empty (blankState 8 "time") (.r1 [])
    (by simp [blankState]) rfl]
  exact ⟨rfl, rfl⟩

/-- C3 amended: assigning an empty buffer to `timeSignal` does fail — but
with a `ZeroDivisionError` raised by the frequency-vector formula, and only
after `timeSignal`, `numSamples`, `fftDegree` (now `-inf`), `timeLength`
and `timeVector` have already been overwritten. -/
theorem empty_assign_behaviour (s : SigState) (h : s.samplingRate ≠ 0) :
    setTimeSignal s (.r1 []) =
      ({ s with timeSignal := .r1 [], numSamples := 0, fftDegree := none,
                timeLength := 0, timeVector := [] },
       some .zeroDivisionError) :=
  setTimeSignal_empty s (.r1 []) h rfl

/-- C3 amended witness. -/
theorem empty_assign_behaviour_witness :
    setTimeSignal (blankState 8 "time") (.r1 []) =
      ({ (blankState 8 "time") with timeSignal := .r1 [], numSamples := 0,
                                    fftDegree := none, timeLength := 0,
                                    timeVector := [] },
       some .zeroDivisionError) :=
  empty_assign_behaviour (blankState 8 "time") (by simp [blankState])

/-- C8 counterexample: `validThree` is a genuinely constructed, valid
object, yet the failing assignment of an empty buffer leaves it with
`numSamples` and `fftDegree` overwritten — a failed setter call does *not*
leave the previous state untouched. -/
theorem failed_assign_mutates_counterexample :
    signalObjInit (.r1 [1, 2, 3]) "time" 8 = .ok validThree ∧
    (setTimeSignal validThree (.r1 [])).2 = some PyError.zeroDivisionError ∧
    (setTimeSignal validThree (.r1 [])).1.numSamples ≠ validThree.numSamples ∧
    (setTimeSignal validThree (.r1 [])).1.fftDegree ≠ validThree.fftDegree := by
  have h5 : (blankState 8 "time").samplingRate ≠ 0 := by simp [blankState]
  have hok := setTimeSignal_eq_ok (blankState 8 "time") (.r1 [1, 2, 3]) h5
    (by decide)
  have hsr : validThree.samplingRate ≠ 0 := by
    rw [validThree, hok]
    simp [blankState]
  have hempty := setTimeSignal_empty validThree (.r1 []) hsr rfl
  refine ⟨?_, ?_, ?_, ?_⟩
  · simp [signalObjInit, validThree, hok, NDArray.rank]
  · rw [hempty]
  · rw [hempty, validThree, hok]
    simp [NDArray.len]
  · rw [hempty, validThree, hok]
    simp [np_log2, NDArray.len]

/-- C8 amended: a failing buffer assignment mutates the object part-way
rather than leaving it untouched.  For a `timeSignal` assignment that
raises, the buffer, `numSamples`, `fftDegree`, `timeLength` and
`timeVector` already hold the new values while `freqVector` and
`freqSignal` (assigned after the raising statement) keep their previous
values.  For a `freqSignal` assignment of an empty buffer, `np.fft.ifft`
raises `ValueError` on line 208-212, after line 207 has already committed
the new `freqSignal` — so the frequency buffer holds the new value while
`timeSignal` and every derived field keep their previous, now inconsistent,
values. -/
theorem failed_assign_partial_mutation (s : SigState) (buf : NDArray ℂ)
    (h : s.samplingRate ≠ 0) (hlen : buf.len = 0) :
    (setTimeSignal s buf).2 = some .zeroDivisionError ∧
    (setTimeSignal s buf).1.freqSignal = s.freqSignal ∧
    (setTimeSignal s buf).1.freqVector = s.freqVector ∧
    (setTimeSignal s buf).1.timeSignal = buf ∧
    (setTimeSignal s buf).1.numSamples = 0 ∧
    (setTimeSignal s buf).1.fftDegree = none ∧
    (setFreqSignal s (.r1 [])).2 = some .valueError ∧
    (setFreqSignal s (.r1 [])).1.freqSignal = .r1 [] ∧
    (setFreqSignal s (.r1 [])).1.timeSignal = s.timeSignal ∧
    (setFreqSignal s (.r1 [])).1.numSamples = s.numSamples ∧
    (setFreqSignal s (.r1 [])).1.fftDegree = s.fftDegree ∧
    (setFreqSignal s (.r1 [])).1.timeVector = s.timeVector ∧
    (setFreqSignal s (.r1 [])).1.freqVector = s.freqVector := by
  have ht := setTimeSignal_empty s buf h hlen
  have hf := setFreqSignal_empty s (.r1 []) rfl
  rw [ht, hf]
  exact ⟨rfl, rfl, rfl, rfl, rfl, rfl, rfl, rfl, rfl, rfl, rfl, rfl, rfl⟩

/-- C8 amended witness: the failing empty assignment on a blank object at
sampling rate 16 reports the division error (with the mutations of the
amended statement). -/
theorem failed_assign_partial_mutation_witness :
    (setTimeSignal (blankState 16 "time") (.r2 [])).2 =
      some PyError.zeroDivisionError :=
  (failed_assign_partial_mutation (blankState 16 "time") (.r2 [])
    (by simp [blankState]) rfl).1

/-- The time axis produced by `np.linspace(0, T - 1/sr, n)` with `T = n/sr`
is exactly `[k / sr for k in range(n)]`. -/
theorem linspace_time_axis (sr : ℝ) (h : sr ≠ 0) (n : ℕ) (hn : n ≠ 0) :
    linspace 0 ((n : ℝ) / sr - 1 / sr) n =
      (List.range n).map fun k : ℕ => (k : ℝ) / sr := by
  rcases eq_or_ne n 1 with h1 | h1
  · subst h1
    simp [linspace, List.range_succ]
  · rw [linspace, if_neg h1]
    apply List.map_congr_left
    intro k hk
    have h2 : 2 ≤ n := by omega
    have h2' : (2 : ℝ) ≤ (n : ℝ) := by exact_mod_cast h2
    have hn1 : (n : ℝ) - 1 ≠ 0 := by linarith
    field_simp
    ring

/-- C6: after a successful time-buffer assignment of a buffer of length `n`
at sampling rate `sr ≠ 0`, the derived `timeVector` is exactly the ordered
sequence of the `n` values `k / sr` for `k = 0 … n-1`, and the endpoint
`timeLength = n / sr` is not among them; in particular for `sr = 8`,
`n = 4` the axis is `[0, 0.125, 0.25, 0.375]` and `0.5` does not appear. -/
theorem time_axis_excludes_endpoint :
    (∀ (s : SigState) (arr : NDArray ℂ), s.samplingRate ≠ 0 → arr.len ≠ 0 →
      (setTimeSignal s arr).1.timeVector =
        (List.range arr.len).map (fun k : ℕ => (k : ℝ) / s.samplingRate) ∧
      (setTimeSignal s arr).1.timeLength ∉
        (setTimeSignal s arr).1.timeVector) ∧
    ((setTimeSignal (blankState 8 "time") (.r1 [1, 2, 3, 4])).1.timeVector =
        [0, 0.125, 0.25, 0.375] ∧
      (0.5 : ℝ) ∉
        (setTimeSignal (blankState 8 "time") (.r1 [1, 2, 3, 4])).1.timeVector) := by
  have general : ∀ (s : SigState) (arr : NDArray ℂ),
      s.samplingRate ≠ 0 → arr.len ≠ 0 →
      (setTimeSignal s arr).1.timeVector =
        (List.range arr.len).map (fun k : ℕ => (k : ℝ) / s.samplingRate) ∧
      (setTimeSignal s arr).1.timeLength ∉
        (setTimeSignal s arr).1.timeVector := by
    intro s arr h hn
    rw [setTimeSignal_eq_ok s arr h hn]
    refine ⟨linspace_time_axis s.samplingRate h arr.len hn, ?_⟩
    rw [linspace_time_axis s.samplingRate h arr.len hn]
    intro hmem
    rw [List.mem_map] at hmem
    obtain ⟨k, hk, hkeq⟩ := hmem
    rw [List.mem_range] at hk
    have : k = arr.len := by
      field_simp at hkeq
      exact_mod_cast hkeq
    omega
  have h1 := (general (blankState 8 "time") (.r1 [1, 2, 3, 4])
    (by simp [blankState]) (by decide)).1
  have hlist : (setTimeSignal (blankState 8 "time")
      (.r1 [1, 2, 3, 4])).1.timeVector = [0, 0.125, 0.25, 0.375] := by
    rw [h1]
    norm_num [List.range_succ, blankState, NDArray.len]
  refine ⟨general, hlist, ?_⟩
  rw [hlist]
  norm_num [List.mem_cons]

/-- C6 witness: the general axis statement instantiated at sampling rate 8
and a four-sample buffer. -/
theorem time_axis_excludes_endpoint_witness :
    (setTimeSignal (blankState 8 "time") (.r1 [1, 2, 3, 4])).1.timeVector =
      (List.range (NDArray.r1 [1, 2, 3, 4] : NDArray ℂ).len).map
        (fun k : ℕ => (k : ℝ) / (blankState 8 "time").samplingRate) ∧
    (setTimeSignal (blankState 8 "time") (.r1 [1, 2, 3, 4])).1.timeLength ∉
      (setTimeSignal (blankState 8 "time") (.r1 [1, 2, 3, 4])).1.timeVector :=
  time_axis_excludes_endpoint.1 (blankState 8 "time") (.r1 [1, 2, 3, 4])
    (by simp [blankState]) (by decide)

/-- C2: the time → frequency → time round trip.  For any non-empty real
buffer `x` and sampling rate `sr ≠ 0`: constructing a signal from `x` in
the time domain stores `freqSignal = DFT(x)`, and constructing a fresh
signal from those coefficients in the frequency domain reproduces exactly
the original samples (`Re(IDFT(DFT(x))) = x`; the spec's 1e-9 relative
tolerance becomes exact equality in the exact-arithmetic model). -/
theorem dft_roundtrip_reproduces_input (x : List ℝ) (sr : ℝ)
    (hx : x ≠ []) (hsr : sr ≠ 0) :
    ∃ s1 s2,
      signalObjInit (.r1 (x.map fun t : ℝ => (t : ℂ))) "time" sr = .ok s1 ∧
      s1.freqSignal = .r1 (dft (x.map fun t : ℝ => (t : ℂ))) ∧
      signalObjInit s1.freqSignal "freq" sr = .ok s2 ∧
      s2.timeSignal = .r1 (x.map fun t : ℝ => (t : ℂ)) := by
  set xc : List ℂ := x.map (fun t : ℝ => (t : ℂ)) with hxc
  have hxne : x.length ≠ 0 := fun h => hx (List.length_eq_zero.mp h)
  have hxlen : (NDArray.r1 xc).len ≠ 0 := by
    simpa [NDArray.len, hxc, List.length_map] using hxne
  have h5 : (blankState sr "time").samplingRate ≠ 0 := hsr
  have h5' : (blankState sr "freq").samplingRate ≠ 0 := hsr
  have hok1 := setTimeSignal_eq_ok (blankState sr "time") (.r1 xc) h5 hxlen
  have hfft : fftAxis0 (.r1 xc) = .r1 (dft xc) := rfl
  have hflen : (ifftAxis0Re (.r1 (dft xc))).len ≠ 0 := by
    simpa [ifftAxis0Re, transformAxis0, NDArray.map, NDArray.len, idft, dft,
      hxc] using hxne
  have hdlen : (NDArray.r1 (dft xc)).len ≠ 0 := by
    simpa [NDArray.len, dft, hxc] using hxne
  have hok2 := setFreqSignal_eq_ok (blankState sr "freq") (.r1 (dft xc)) h5'
    hdlen hflen
  refine ⟨(setTimeSignal (blankState sr "time") (.r1 xc)).1,
    (setFreqSignal (blankState sr "freq") (.r1 (dft xc))).1, ?_, ?_, ?_, ?_⟩
  · simp [signalObjInit, NDArray.rank, hok1]
  · rw [hok1]
    simpa using hfft
  · rw [hok1]
    simp [signalObjInit, NDArray.rank, fftAxis0, transformAxis0, hok2]
  · rw [hok2]
    simp [ifftAxis0Re, transformAxis0, NDArray.map, idft_dft, hxc,
      List.map_map, Function.comp, Complex.ofReal_re]

/-- C2 witness: the round trip at `x = [1, 2, 3]`, `sr = 8`. -/
theorem dft_roundtrip_reproduces_input_witness :
    ∃ s1 s2,
      signalObjInit (.r1 ([1, 2, 3].map fun t : ℝ => (t : ℂ))) "time" 8 = .ok s1 ∧
      s1.freqSignal = .r1 (dft ([1, 2, 3].map fun t : ℝ => (t : ℂ))) ∧
      signalObjInit s1.freqSignal "freq" 8 = .ok s2 ∧
      s2.timeSignal = .r1 ([1, 2, 3].map fun t : ℝ => (t : ℂ)) :=
  dft_roundtrip_reproduces_input [1, 2, 3] 8 (List.cons_ne_nil 1 [2, 3])
    (by simp)

/-- Rewrite rule: `Except` bind on a success. -/
theorem ok_bind (a : α) (f : α → Except ε β) : (Except.ok a >>= f) = f a := rfl

/-- The sampling-rate field of a blank state. -/
theorem blankState_samplingRate (sr : ℝ) (d : String) :
    (blankState sr d).samplingRate = sr := rfl

/-- The domain field of a blank state. -/
theorem blankState_domain (sr : ℝ) (d : String) :
    (blankState sr d).domain = d := rfl

/-- The rank of a rank-1 array literal. -/
theorem rank_r1 (xs : List α) : (NDArray.r1 xs).rank = 1 := rfl

/-- The rank of a rank-2 array literal. -/
theorem rank_r2 (xs : List (List α)) : (NDArray.r2 xs).rank = 2 := rfl

/-- The first-axis length of a rank-1 array literal. -/
theorem len_r1 (xs : List α) : (NDArray.r1 xs).len = xs.length := rfl

/-- The first-axis length of a rank-2 array literal. -/
theorem len_r2 (xs : List (List α)) : (NDArray.r2 xs).len = xs.length := rfl

/-- The channel count of a rank-1 array literal. -/
theorem numChannels_r1 (xs : List α) : (NDArray.r1 xs).numChannels = 1 := rfl

/-- The channel count of a rank-2 array literal. -/
theorem numChannels_r2 (xs : List (List α)) :
    (NDArray.r2 xs).numChannels = (xs.headD []).length := rfl

/-- Rewrite rule: `Except` bind on a failure. -/
theorem error_bind (e : ε) (f : α → Except ε β) :
    ((Except.error e : Except ε α) >>= f) = Except.error e := rfl

/-- C1: the spec claims that dividing two multi-channel signals produces an
`n*m`-channel outer-product result.  In the code the multi×multi branch of
`__truediv__` can never return any result.  On the first loop iteration
Python evaluates the right-hand side `self.freqSignal[:,0] /
other.freqSignal[:,0]` first; if that fails (e.g. a broadcast `ValueError`
for mismatched sample counts) its exception propagates, and if it succeeds
the store target `result.freqSignal[:, i + channelB]` raises `IndexError`,
because `result` is the fresh default 1-sample rank-1 signal built two
lines earlier.  Part one: for every pair of multi-channel operands (left
operand with at least one channel) the division raises instead of
returning an outer-product result.  Part two: whenever the first
iteration's division itself goes through — in particular for the spec's
equal-length example — the raised error is precisely that `IndexError`. -/
theorem truediv_multi_multi_never_returns :
    (∀ (a b s : SigState), 1 < a.timeSignal.rank → 1 < b.timeSignal.rank →
      a.timeSignal.numChannels ≠ 0 → truedivOp a (.signal b) ≠ .ok s) ∧
    (∀ (a b : SigState) (cA cB q : NDArray ℂ), 1 < a.timeSignal.rank →
      1 < b.timeSignal.rank → a.timeSignal.numChannels ≠ 0 →
      b.timeSignal.numChannels ≠ 0 → a.samplingRate ≠ 0 →
      a.freqSignal.col 0 = .ok cA → b.freqSignal.col 0 = .ok cB →
      elemDiv cA cB = .ok q →
      truedivOp a (.signal b) = .error .indexError) := by
  constructor
  · intro a b s ha hb ha' hs
    simp only [truedivOp] at hs
    rcases hinit : signalObjInit (NDArray.r1 [0]) "time" a.samplingRate with
      e | r0 <;> rw [hinit] at hs
    · rw [error_bind] at hs
      exact Except.noConfusion hs
    · simp only [ok_bind, if_pos ha, if_pos hb, if_neg ha'] at hs
      by_cases hbnc : b.timeSignal.numChannels = 0
      · rw [if_pos hbnc] at hs
        exact Except.noConfusion hs
      · rw [if_neg hbnc] at hs
        rcases hcA : a.freqSignal.col 0 with eA | cA <;>
          simp only [hcA, ok_bind, error_bind] at hs
        · exact Except.noConfusion hs
        · rcases hcB : b.freqSignal.col 0 with eB | cB <;>
            simp only [hcB, ok_bind, error_bind] at hs
          · exact Except.noConfusion hs
          · rcases hq : elemDiv cA cB with e2 | q <;>
              simp only [hq, ok_bind, error_bind] at hs
            · exact Except.noConfusion hs
            · exact Except.noConfusion hs
  · intro a b cA cB q ha hb ha' hb' hsr hA hB hq
    have h5 : (blankState a.samplingRate "time").samplingRate ≠ 0 := hsr
    have hok := setTimeSignal_eq_ok (blankState a.samplingRate "time")
      (.r1 [0]) h5 (by decide)
    simp [truedivOp, signalObjInit, rank_r1, hok, ok_bind, ha, hb, ha', hb',
      hA, hB, hq]

/-- C1 witness: the spec's own example operands — `[[1,1],[2,2]]` and
`[[10,10],[20,20]]`, 2 channels × 2 channels with equal sample counts —
crash with `IndexError` instead of producing a 4-channel result.  The
frequency buffers below are the genuine DFT values of the time buffers
(`DFT [1,2] = [3,-1]`, `DFT [10,20] = [30,-10]`, per channel), so both
operand states are exactly what construction produces. -/
theorem truediv_multi_multi_never_returns_witness :
    truedivOp
      { samplingRate := 44100,
        timeSignal := .r2 [[1, 1], [2, 2]],
        freqSignal := .r2 [[3, 3], [-1, -1]],
        numSamples := 2,
        fftDegree := np_log2 2,
        timeLength := 2 / 44100,
        timeVector := linspace 0 (2 / 44100 - 1 / 44100) 2,
        freqVector := linspace 0 ((2 - 1) * 44100 / 2) 2,
        domain := "time" }
      (.signal
        { samplingRate := 44100,
          timeSignal := .r2 [[10, 10], [20, 20]],
          freqSignal := .r2 [[30, 30], [-10, -10]],
          numSamples := 2,
          fftDegree := np_log2 2,
          timeLength := 2 / 44100,
          timeVector := linspace 0 (2 / 44100 - 1 / 44100) 2,
          freqVector := linspace 0 ((2 - 1) * 44100 / 2) 2,
          domain := "time" }) = .error .indexError :=
  truediv_multi_multi_never_returns.2 _ _ (.r1 [3, -1]) (.r1 [30, -10])
    (.r1 [3 / 30, -1 / -10]) (by decide) (by decide) (by decide) (by decide)
    (by simp) rfl rfl rfl

/-- C5: single-channel addition never yields `[5, 7, 9]`: after the operand
type guard, `__add__` executes `result.domain = 'time'` — an assignment to
the getter-only `domain` property — so adding `SignalObj([1,2,3])` and
`SignalObj([4,5,6])` raises `AttributeError` before touching any sample. -/
theorem add_single_channel_raises :
    ∃ sA sB,
      signalObjInit (.r1 [1, 2, 3]) "time" 44100 = .ok sA ∧
      signalObjInit (.r1 [4, 5, 6]) "time" 44100 = .ok sB ∧
      addOp sA (.signal sB) = .error .attributeError := by
  have h5 : (blankState (44100 : ℝ) "time").samplingRate ≠ 0 := by
    simp [blankState]
  have hokA := setTimeSignal_eq_ok (blankState 44100 "time") (.r1 [1, 2, 3])
    h5 (by decide)
  have hokB := setTimeSignal_eq_ok (blankState 44100 "time") (.r1 [4, 5, 6])
    h5 (by decide)
  have hok0 := setTimeSignal_eq_ok (blankState (44100 : ℝ) "time") (.r1 [0])
    h5 (by decide)
  refine ⟨(setTimeSignal (blankState 44100 "time") (.r1 [1, 2, 3])).1,
    (setTimeSignal (blankState 44100 "time") (.r1 [4, 5, 6])).1, ?_, ?_, ?_⟩
  · simp [signalObjInit, NDArray.rank, hokA]
  · simp [signalObjInit, NDArray.rank, hokB]
  · rw [hokA]
    simp [addOp, signalObjInit, rank_r1, blankState_samplingRate, hok0,
      ok_bind]

/-- The DFT of a single sample is that sample (`exp 0 = 1`). -/
theorem dft_singleton (z : ℂ) : dft [z] = [z] := by
  simp [dft, dftCoef, List.range_succ, Finset.sum_range_one, Complex.exp_zero]

/-- The inverse DFT of a single coefficient is that coefficient. -/
theorem idft_singleton (z : ℂ) : idft [z] = [z] := by
  simp [idft, idftCoef, List.range_succ, Finset.sum_range_one,
    Complex.exp_zero]

/-- The transform `fftAxis0` on a one-sample rank-1 buffer is the identity. -/
theorem fft_r1_singleton (z : ℂ) : fftAxis0 (.r1 [z]) = .r1 [z] := by
  simp [fftAxis0, transformAxis0, dft_singleton]

/-- The transform `fftAxis0` on a one-sample two-channel rank-2 buffer is the identity
(each channel holds a single sample). -/
theorem fft_r2_one_sample (a b : ℂ) :
    fftAxis0 (.r2 [[a, b]]) = .r2 [[a, b]] := by
  simp [fftAxis0, transformAxis0, alongAxis0, npTranspose, List.range_succ,
    dft_singleton]

/-- Evaluates `np.real(np.fft.ifft(...))` on a single coefficient. -/
theorem ifftRe_singleton (z : ℂ) :
    ifftAxis0Re (.r1 [z]) = .r1 [(z.re : ℂ)] := by
  simp [ifftAxis0Re, transformAxis0, NDArray.map, idft_singleton]

/-- A `freqSignal` assignment of a single coefficient at sampling rate 1,
fully evaluated. -/
theorem setFreq_single (s : SigState) (hsr : s.samplingRate = 1) (z : ℂ) :
    setFreqSignal s (.r1 [z]) =
      ({ samplingRate := 1, timeSignal := .r1 [(z.re : ℂ)],
         freqSignal := .r1 [z], numSamples := 1, fftDegree := some 0,
         timeLength := 1, timeVector := [0], freqVector := [0],
         domain := s.domain }, none) := by
  have hlen : (ifftAxis0Re (.r1 [z])).len ≠ 0 := by
    simp [ifftRe_singleton, len_r1]
  rw [setFreqSignal_eq_ok s (.r1 [z]) (by rw [hsr]; norm_num)
    (by simp [NDArray.len]) hlen]
  rw [ifftRe_singleton]
  norm_num [len_r1, np_log2, Real.logb_one, hsr, arange, linspace,
    List.range_succ]

/-- C4: spec says a multi-channel ÷ single-channel division returns one
quotient per channel of the multi-channel operand, and that `add`/`subtract`
follow the same rule.  On the code: (i) the mixed-rank `__truediv__` loop
*rebinds* `result.freqSignal` each iteration, so `A / B` with `A` holding
channels `[4]` and `[6]` and `B = [2]` returns a *single*-channel signal
holding only the last quotient `[3]`; (ii) in the single × multi direction
the loop ranges over `self.num_channels() = 1`, so `B / A` returns a
single-channel signal using only `A`'s channel 0 (`[2/4] = [1/2]`); and
(iii) `__add__` and `__sub__` never get to any broadcasting at all — they
raise `AttributeError` at `result.domain = 'time'`. -/
theorem mixed_rank_broadcast_collapses :
    ∃ sA sB,
      signalObjInit (.r2 [[4, 6]]) "time" 1 = .ok sA ∧
      signalObjInit (.r1 [2]) "time" 1 = .ok sB ∧
      (∃ sR, truedivOp sA (.signal sB) = .ok sR ∧
        sR.timeSignal.numChannels = 1 ∧ sR.freqSignal = .r1 [3]) ∧
      (∃ sR2, truedivOp sB (.signal sA) = .ok sR2 ∧
        sR2.timeSignal.numChannels = 1 ∧ sR2.freqSignal = .r1 [1 / 2]) ∧
      addOp sA (.signal sB) = .error .attributeError ∧
      subOp sA (.signal sB) = .error .attributeError := by
  have h5 : (blankState (1 : ℝ) "time").samplingRate ≠ 0 := by
    simp [blankState]
  have hokA := setTimeSignal_eq_ok (blankState 1 "time") (.r2 [[4, 6]]) h5
    (by decide)
  have hokB := setTimeSignal_eq_ok (blankState 1 "time") (.r1 [2]) h5
    (by decide)
  have hok0 := setTimeSignal_eq_ok (blankState (1 : ℝ) "time") (.r1 [0]) h5
    (by decide)
  have hs1 : ¬("time" = "") := by decide
  have hs2 : ¬("time" = "freq") := by decide
  refine ⟨(setTimeSignal (blankState 1 "time") (.r2 [[4, 6]])).1,
    (setTimeSignal (blankState 1 "time") (.r1 [2])).1, ?_, ?_, ?_, ?_, ?_, ?_⟩
  · simp [signalObjInit, rank_r2, hokA]
  · simp [signalObjInit, rank_r1, hokB]
  · refine ⟨{ samplingRate := 1,
              timeSignal := .r1 [3],
              freqSignal := .r1 [3],
              numSamples := 1,
              fftDegree := some 0,
              timeLength := 1,
              timeVector := [0],
              freqVector := [0],
              domain := "freq" }, ?_, rfl, rfl⟩
    rw [hokA, hokB]
    norm_num [truedivOp, signalObjInit, rank_r1, rank_r2, numChannels_r1,
      numChannels_r2, blankState_samplingRate, blankState_domain, hok0,
      ok_bind, fft_r1_singleton, fft_r2_one_sample, dft_singleton,
      NDArray.col, elemDiv, liftSet, List.range_succ, List.foldlM_cons,
      List.foldlM_nil, setFreq_single, hs1, hs2, Complex.ext_iff]
  · refine ⟨{ samplingRate := 1,
              timeSignal := .r1 [1 / 2],
              freqSignal := .r1 [1 / 2],
              numSamples := 1,
              fftDegree := some 0,
              timeLength := 1,
              timeVector := [0],
              freqVector := [0],
              domain := "freq" }, ?_, rfl, rfl⟩
    rw [hokA, hokB]
    norm_num [truedivOp, signalObjInit, rank_r1, rank_r2, numChannels_r1,
      numChannels_r2, blankState_samplingRate, blankState_domain, hok0,
      ok_bind, fft_r1_singleton, fft_r2_one_sample, dft_singleton,
      NDArray.col, elemDiv, liftSet, List.range_succ, List.foldlM_cons,
      List.foldlM_nil, setFreq_single, hs1, hs2, Complex.ext_iff]
  · rw [hokA]
    simp [addOp, signalObjInit, rank_r1, blankState_samplingRate, hok0,
      ok_bind]
  · rw [hokA]
    simp [subOp, signalObjInit, rank_r1, blankState_samplingRate, hok0,
      ok_bind]

end PyTTa
